import Mathlib

/-
Shallow embedding of the "Lexify" lease-analysis frontend
(repository Trolleroof/LaneyHackathon).

The repository is a Next.js frontend.  The logic relevant to the
specification lives in three components:

  * src/frontend/components/DocumentUploader.tsx
      upload/analysis state machine (idle/uploading/processing/complete/error),
      severity → badge colour mapping, completed-view rendering, PDF report
      export with a plain-text fallback;
  * src/frontend/components/AnalysisChatBot.tsx
      analysis-aware chat widget (lease-context bundling, contextual questions);
  * src/frontend/components/ChatBot.tsx
      generic chat widget.

React state updates are modelled with explicit state passing; the event
handlers become pure functions from the captured state (and an explicit
outcome of the awaited network call) to the new state plus the list of
network requests they issue.  JavaScript strings are Lean `String`s,
JavaScript numbers that the code treats as integers are `Int`/`Nat`.
-/

/-! ## Data model (the TypeScript interfaces) -/

/-- Severity union type `'high' | 'medium' | 'low'` used for clause severity
and tenant-right importance. -/
inductive Severity where
  | high
  | medium
  | low
  deriving DecidableEq, Repr

/-- The literal string carried by a `Severity` value in the TypeScript union. -/
def Severity.str : Severity → String
  | .high => "high"
  | .medium => "medium"
  | .low => "low"

/-- Result of JavaScript `severity.toUpperCase()` on the three union values. -/
def Severity.upper : Severity → String
  | .high => "HIGH"
  | .medium => "MEDIUM"
  | .low => "LOW"

/-- One element of `analysis.unfair_clauses`. -/
structure UnfairClause where
  clause_text : String
  issue : String
  severity : Severity
  explanation : String
  recommendation : String
  deriving DecidableEq, Repr

/-- One element of `analysis.tenant_rights`. -/
structure TenantRight where
  title : String
  description : String
  importance : Severity
  deriving DecidableEq, Repr

/-- The `analysis` field of an upload response. -/
structure Analysis where
  unfair_clauses : List UnfairClause
  plain_english_summary : String
  tenant_rights : List TenantRight
  recommendations : List String
  overall_score : Int
  deriving DecidableEq, Repr

/-- The `AnalysisResults` interface: payload of a successful
`/api/upload-document` response. -/
structure AnalysisResults where
  document_id : Int
  filename : String
  analysis : Analysis
  deriving DecidableEq, Repr

/-! ## JavaScript string helpers -/

/-- White-space characters recognised by JavaScript `String.prototype.trim`
(ECMA-262 WhiteSpace and LineTerminator code points). -/
def jsWhitespace (c : Char) : Bool :=
  let n := c.toNat
  n = 0x9 || n = 0xA || n = 0xB || n = 0xC || n = 0xD || n = 0x20 || n = 0xA0 ||
  n = 0x1680 || (0x2000 ≤ n && n ≤ 0x200A) || n = 0x2028 || n = 0x2029 ||
  n = 0x202F || n = 0x205F || n = 0x3000 || n = 0xFEFF

/-- Trim on a character list: drop white space from both ends. -/
def trimChars (l : List Char) : List Char :=
  ((l.dropWhile jsWhitespace).reverse.dropWhile jsWhitespace).reverse

/-- JavaScript `s.trim()`. -/
def jsTrim (s : String) : String := String.mk (trimChars s.data)

/-- JavaScript `arr.slice(-k)` for `k > 0`: the last `min k n` elements. -/
def sliceLast (k : Nat) (xs : List α) : List α := xs.drop (xs.length - k)

/-- Resolution of `process.env.NEXT_PUBLIC_API_URL || 'http://localhost:8000'`
(`||` also rejects the empty string, which is falsy). -/
def resolveApiUrl (env : Option String) : String :=
  match env with
  | some u => if u = "" then "http://localhost:8000" else u
  | none => "http://localhost:8000"

/-! ## JSON serialization (JavaScript `JSON.stringify` on the objects the
code builds; string escaping per ECMA-262 QuoteJSONString). -/

/-- Lower-case hexadecimal digit. -/
def hexChar (n : Nat) : Char := Nat.digitChar n

/-- Escape of a single character inside a JSON string literal. -/
def jsonEscapeChar (c : Char) : String :=
  if c = '"' then "\\\""
  else if c = '\\' then "\\\\"
  else if c = '\x08' then "\\b"
  else if c = '\x09' then "\\t"
  else if c = '\x0a' then "\\n"
  else if c = '\x0c' then "\\f"
  else if c = '\x0d' then "\\r"
  else if c.toNat < 0x20 then
    String.mk ['\\', 'u', '0', '0', hexChar (c.toNat / 16), hexChar (c.toNat % 16)]
  else String.mk [c]

/-- Escape of a whole string (without the surrounding quotes). -/
def jsonEscape (s : String) : String := String.join (s.data.map jsonEscapeChar)

/-- JSON string literal. -/
def jsonStr (s : String) : String := "\"" ++ jsonEscape s ++ "\""

/-- Join a list of strings with a separator, as JavaScript `arr.join(sep)`. -/
def joinSep (sep : String) : List String → String
  | [] => ""
  | [x] => x
  | x :: xs => x ++ sep ++ joinSep sep xs

/-- Serialization of one element of the `problematic_clauses` array built in
`AnalysisChatBot.sendMessage` (object-literal key order: issue, severity,
clause_text, explanation, recommendation). -/
def serializeClause (c : UnfairClause) : String :=
  "\x7b\"issue\":" ++ jsonStr c.issue ++
  ",\"severity\":" ++ jsonStr c.severity.str ++
  ",\"clause_text\":" ++ jsonStr c.clause_text ++
  ",\"explanation\":" ++ jsonStr c.explanation ++
  ",\"recommendation\":" ++ jsonStr c.recommendation ++ "\x7d"

/-- Serialization of one tenant-right object (interface key order). -/
def serializeRight (t : TenantRight) : String :=
  "\x7b\"title\":" ++ jsonStr t.title ++
  ",\"description\":" ++ jsonStr t.description ++
  ",\"importance\":" ++ jsonStr t.importance.str ++ "\x7d"

/-- JavaScript `JSON.stringify(leaseContext)` for the `leaseContext` object
assembled in `AnalysisChatBot.sendMessage` (keys in insertion order:
filename, overall_score, problematic_clauses, tenant_rights,
recommendations, summary). -/
def serializeLeaseContext (ar : AnalysisResults) : String :=
  "\x7b\"filename\":" ++ jsonStr ar.filename ++
  ",\"overall_score\":" ++ toString ar.analysis.overall_score ++
  ",\"problematic_clauses\":[" ++
    joinSep "," (ar.analysis.unfair_clauses.map serializeClause) ++
  "],\"tenant_rights\":[" ++
    joinSep "," (ar.analysis.tenant_rights.map serializeRight) ++
  "],\"recommendations\":[" ++
    joinSep "," (ar.analysis.recommendations.map jsonStr) ++
  "],\"summary\":" ++ jsonStr ar.analysis.plain_english_summary ++ "\x7d"

/-! ## Chat widgets (`AnalysisChatBot.tsx` and `ChatBot.tsx`) -/

/-- Role of a chat message. -/
inductive ChatRole where
  | user
  | assistant
  deriving DecidableEq, Repr

/-- The `ChatMessage` interface; `timestamp?: Date` becomes an optional clock
value. -/
structure ChatMessage where
  role : ChatRole
  content : String
  timestamp : Option Nat
  deriving DecidableEq, Repr

/-- The `ChatResponse` interface. -/
structure ChatResponse where
  response : String
  suggested_questions : List String
  references : List String
  chat_id : Option Int
  deriving DecidableEq, Repr

/-- Body (plus URL) of a POST to `/api/chat`. -/
structure ChatRequest where
  url : String
  message : String
  document_id : Option Int
  chat_history : List ChatMessage
  deriving DecidableEq, Repr

/-- Outcome of the awaited `axios.post` in a chat widget: a parsed response,
or a rejection carrying `error.response?.status`. -/
inductive ChatOutcome where
  | ok (resp : ChatResponse)
  | err (status : Option Nat)
  deriving DecidableEq, Repr

/-- Error text appended as an assistant message on a failed chat call. -/
def chatErrorText (status : Option Nat) : String :=
  if status = some 401 then "Please log in to use the chat feature."
  else "Sorry, I\x27m having trouble responding right now. Please try again."

/-- Observable result of one `sendMessage` invocation: the final message
list, the network requests issued, and whether `setIsLoading(true)` ran. -/
structure SendResult where
  messages : List ChatMessage
  requests : List ChatRequest
  loadingSet : Bool
  deriving DecidableEq, Repr

/-- Embedding of `sendMessage` in `AnalysisChatBot.tsx` (lines 93-156).
`messages` is the state captured by the closure; `tUser`/`tAssistant` are
the two `new Date()` readings; `outcome` resolves the awaited post. -/
def AnalysisChatBot.sendMessage (env : Option String) (ar : AnalysisResults)
    (messages : List ChatMessage) (input : String) (tUser tAssistant : Nat)
    (outcome : ChatOutcome) : SendResult :=
  if jsTrim input = "" then
    { messages := messages, requests := [], loadingSet := false }
  else
    let userMessage : ChatMessage := { role := .user, content := input, timestamp := some tUser }
    let req : ChatRequest :=
      { url := resolveApiUrl env ++ "/api/chat"
        message := input ++ "\n\nLEASE CONTEXT: " ++ serializeLeaseContext ar
        document_id := some ar.document_id
        chat_history := sliceLast 5 messages }
    match outcome with
    | .ok resp =>
      { messages := messages ++ [userMessage,
          { role := .assistant, content := resp.response, timestamp := some tAssistant }]
        requests := [req]
        loadingSet := true }
    | .err status =>
      { messages := messages ++ [userMessage,
          { role := .assistant, content := chatErrorText status, timestamp := some tAssistant }]
        requests := [req]
        loadingSet := true }

/-- Embedding of `sendMessage` in `ChatBot.tsx` (lines 63-110): same flow but
the message is sent verbatim and no `document_id` is attached. -/
def ChatBot.sendMessage (env : Option String) (messages : List ChatMessage)
    (input : String) (tUser tAssistant : Nat) (outcome : ChatOutcome) : SendResult :=
  if jsTrim input = "" then
    { messages := messages, requests := [], loadingSet := false }
  else
    let userMessage : ChatMessage := { role := .user, content := input, timestamp := some tUser }
    let req : ChatRequest :=
      { url := resolveApiUrl env ++ "/api/chat"
        message := input
        document_id := none
        chat_history := sliceLast 5 messages }
    match outcome with
    | .ok resp =>
      { messages := messages ++ [userMessage,
          { role := .assistant, content := resp.response, timestamp := some tAssistant }]
        requests := [req]
        loadingSet := true }
    | .err status =>
      { messages := messages ++ [userMessage,
          { role := .assistant, content := chatErrorText status, timestamp := some tAssistant }]
        requests := [req]
        loadingSet := true }

/-! ## Contextual questions (`AnalysisChatBot.tsx`, lines 70-91) -/

/-- Question pushed when the lease has problematic clauses. -/
def clausesQuestion (ar : AnalysisResults) : String :=
  "What should I do about the " ++ toString ar.analysis.unfair_clauses.length ++
  " problematic clauses in my lease?"

/-- Question pushed when some clause has severity `high`. -/
def highPriorityQuestion : String :=
  "How serious are the high-priority issues in my lease?"

/-- Question pushed when the overall score is below 70. -/
def scoreQuestion (ar : AnalysisResults) : String :=
  "My lease scored " ++ toString ar.analysis.overall_score ++
  "/100. What does this mean?"

/-- First always-pushed question. -/
def explainQuestion : String :=
  "Can you explain the most important issue in my lease?"

/-- Second always-pushed question. -/
def nextStepQuestion : String :=
  "What\x27s my next step after reviewing this analysis?"

/-- Third always-pushed question. -/
def legalQuestion : String :=
  "Are these lease terms legal in my area?"

/-- Embedding of `getContextualQuestions`: conditional pushes followed by
`questions.slice(0, 4)`. -/
def getContextualQuestions (ar : AnalysisResults) : List String :=
  ((if 0 < ar.analysis.unfair_clauses.length then
      [clausesQuestion ar] ++
        (if 0 < (ar.analysis.unfair_clauses.filter
            (fun c => c.severity == Severity.high)).length
         then [highPriorityQuestion] else [])
    else []) ++
   (if ar.analysis.overall_score < 70 then [scoreQuestion ar] else []) ++
   [explainQuestion, nextStepQuestion, legalQuestion]).take 4

/-! ## DocumentUploader state machine (`DocumentUploader.tsx`) -/

/-- The `uploadStatus` union type. -/
inductive UploadStatus where
  | idle
  | uploading
  | processing
  | complete
  | error
  deriving DecidableEq, Repr

/-- Metadata of a dropped file (only `size` is inspected by `onDrop`). -/
structure FileInfo where
  name : String
  size : Nat
  deriving DecidableEq, Repr

/-- Outcome of the awaited `axios.post` to `/api/upload-document`: a parsed
`AnalysisResults`, or a rejection (non-2xx response or network failure)
carrying `err.response?.data?.detail`. -/
inductive UploadOutcome where
  | success (r : AnalysisResults)
  | failure (detail : Option String)
  deriving DecidableEq, Repr

/-- React component state of `DocumentUploader` (the useState hooks touched
by the upload flow). -/
structure UploaderState where
  uploadStatus : UploadStatus
  progress : Int
  results : Option AnalysisResults
  error : Option String
  selectedLanguage : String
  deriving DecidableEq, Repr

/-- Initial state of a freshly mounted `DocumentUploader`. -/
def initialUploaderState : UploaderState :=
  { uploadStatus := .idle, progress := 0, results := none, error := none
    selectedLanguage := "en" }

/-- Primitive effects performed by the upload flow, in program order.
`progressTick` is one firing of the simulated-progress interval;
`request`/`responseReceived` bracket the awaited network call. -/
inductive UploadEvent where
  | setStatus (s : UploadStatus)
  | setProgress (p : Int)
  | progressTick
  | setResults (r : AnalysisResults)
  | setError (msg : String)
  | clearError
  | request (url : String)
  | responseReceived
  | toastError (msg : String)
  | toastSuccess (msg : String)
  deriving DecidableEq, Repr

/-- Effect of one event on the component state (toasts and the network
events do not touch the state). -/
def applyEvent (s : UploaderState) : UploadEvent → UploaderState
  | .setStatus st => { s with uploadStatus := st }
  | .setProgress p => { s with progress := p }
  | .progressTick =>
      { s with progress := if 90 ≤ s.progress then 90 else s.progress + 10 }
  | .setResults r => { s with results := some r }
  | .setError msg => { s with error := some msg }
  | .clearError => { s with error := none }
  | .request _ => s
  | .responseReceived => s
  | .toastError _ => s
  | .toastSuccess _ => s

/-- Folding a whole event trace over the state. -/
def applyTrace (s : UploaderState) (tr : List UploadEvent) : UploaderState :=
  tr.foldl applyEvent s

/-- Default error message when the response body has no usable `detail`. -/
def defaultUploadError : String :=
  "Failed to analyze document. Please try again."

/-- Evaluation of `err.response?.data?.detail || '...'` (`||` rejects the
falsy empty string). -/
def uploadErrorMessage (detail : Option String) : String :=
  match detail with
  | some d => if d = "" then defaultUploadError else d
  | none => defaultUploadError

/-- Toast shown by the client-side 10MB guard. -/
def oversizeToast : String :=
  "File size too large. Please upload a file smaller than 10MB."

/-- Event trace of one `onDrop` invocation (lines 264-320).  The status,
progress and formData writes up to and including issuing the request are
synchronous; `ticks` interval firings happen while the call is awaited;
the two result branches follow the response.  On success the interval is
cleared before `setProgress(100)`; on failure the interval is left running
(its ticks cap progress at 90 and set no status). -/
def onDropTrace (env : Option String) (files : List FileInfo)
    (outcome : UploadOutcome) (ticks : Nat) : List UploadEvent :=
  match files.head? with
  | none => []
  | some file =>
    if 10 * 1024 * 1024 < file.size then
      [.toastError oversizeToast]
    else
      [.setStatus .uploading, .setProgress 20, .setStatus .processing,
       .request (resolveApiUrl env ++ "/api/upload-document")] ++
      List.replicate ticks .progressTick ++
      [.responseReceived] ++
      (match outcome with
       | .success r =>
           [.setProgress 100, .setResults r, .setStatus .complete,
            .toastSuccess "Document analyzed successfully!"]
       | .failure detail =>
           [.setStatus .error, .setError (uploadErrorMessage detail),
            .toastError (uploadErrorMessage detail)])

/-- Event trace of the Try Again button in the error view (lines 674-684). -/
def retryTrace : List UploadEvent :=
  [.setStatus .idle, .clearError, .setProgress 0]

/-- User-interface events that can reach the component. -/
inductive UIEvent where
  | drop (files : List FileInfo) (outcome : UploadOutcome) (ticks : Nat)
  | retryClick
  deriving Repr

/-- Trace emitted by one UI event, honouring the guards in the markup:
the dropzone is `disabled: uploadStatus !== 'idle'` (line 329), and the
Try Again button is rendered only in the error view. -/
def uiTrace (env : Option String) (s : UploaderState) : UIEvent → List UploadEvent
  | .drop files outcome ticks =>
      if s.uploadStatus = .idle then onDropTrace env files outcome ticks else []
  | .retryClick =>
      if s.uploadStatus = .error then retryTrace else []

/-- State after one UI event. -/
def stepUI (env : Option String) (s : UploaderState) (e : UIEvent) : UploaderState :=
  applyTrace s (uiTrace env s e)

/-- Network requests contained in a trace. -/
def requestsOf (tr : List UploadEvent) : List String :=
  tr.filterMap (fun e => match e with | .request u => some u | _ => none)

/-- The status set by an event, if any. -/
def statusOfEvent : UploadEvent → Option UploadStatus
  | .setStatus st => some st
  | _ => none

/-- Status values in the order they are set by a trace, preceded by the
status the trace starts from. -/
def statusesOf (init : UploadStatus) (tr : List UploadEvent) : List UploadStatus :=
  init :: tr.filterMap statusOfEvent

/-- Edge relation of the specified state machine
`idle → uploading → processing → complete | error`, `error → idle`. -/
def allowedEdge : UploadStatus → UploadStatus → Bool
  | .idle, .uploading => true
  | .uploading, .processing => true
  | .processing, .complete => true
  | .processing, .error => true
  | .error, .idle => true
  | _, _ => false

/-- Every consecutive pair of the list satisfies `allowedEdge`. -/
def chainOk : List UploadStatus → Bool
  | a :: b :: rest => allowedEdge a b && chainOk (b :: rest)
  | _ => true

/-! ## Severity badge colours and completed-view rendering -/

/-- Embedding of `getSeverityColor` (lines 336-342). -/
def getSeverityColor : Severity → String
  | .high => "text-red-600 bg-red-50 border-red-200"
  | .medium => "text-yellow-600 bg-yellow-50 border-yellow-200"
  | .low => "text-blue-600 bg-blue-50 border-blue-200"

/-- Embedding of `getScoreColor` (lines 344-348). -/
def getScoreColor (score : Int) : String :=
  if 80 ≤ score then "text-green-600"
  else if 60 ≤ score then "text-yellow-600"
  else "text-red-600"

/-- The translation fields consumed by the completed view: the priority
badge labels and the four static "What You Should Do" tips. -/
structure Translations where
  priorities : Severity → String
  keepRecords : String
  knowHotline : String
  understandDeposit : String
  takePhotos : String

/-- English entry of the `TRANSLATIONS` table. -/
def translationsEn : Translations :=
  { priorities := fun sv => match sv with
      | .high => "HIGH PRIORITY"
      | .medium => "MEDIUM PRIORITY"
      | .low => "LOW PRIORITY"
    keepRecords := "Keep detailed records of all communications with your landlord"
    knowHotline := "Know your local tenant rights hotline number"
    understandDeposit := "Understand your security deposit rights"
    takePhotos := "Take photos of the property condition before moving in" }

/-- Korean entry of the `TRANSLATIONS` table. -/
def translationsKo : Translations :=
  { priorities := fun sv => match sv with
      | .high => "높은 우선순위"
      | .medium => "중간 우선순위"
      | .low => "낮은 우선순위"
    keepRecords := "임대인과의 모든 소통 기록을 자세히 보관하세요"
    knowHotline := "지역 세입자 권리 상담 전화번호를 알아두세요"
    understandDeposit := "보증금 권리를 이해하세요"
    takePhotos := "입주 전 부동산 상태 사진을 찍어두세요" }

/-- Spanish entry of the `TRANSLATIONS` table. -/
def translationsEs : Translations :=
  { priorities := fun sv => match sv with
      | .high => "PRIORIDAD ALTA"
      | .medium => "PRIORIDAD MEDIA"
      | .low => "PRIORIDAD BAJA"
    keepRecords := "Mantenga registros detallados de todas las comunicaciones con su arrendador"
    knowHotline := "Conozca el número de la línea directa de derechos de inquilinos local"
    understandDeposit := "Entienda sus derechos de depósito de seguridad"
    takePhotos := "Tome fotos del estado de la propiedad antes de mudarse" }

/-- French entry of the `TRANSLATIONS` table. -/
def translationsFr : Translations :=
  { priorities := fun sv => match sv with
      | .high => "PRIORITÉ ÉLEVÉE"
      | .medium => "PRIORITÉ MOYENNE"
      | .low => "PRIORITÉ FAIBLE"
    keepRecords := "Conservez des dossiers détaillés de toutes les communications avec votre propriétaire"
    knowHotline := "Connaissez le numéro de la ligne d\x27assistance des droits des locataires de votre région"
    understandDeposit := "Comprenez vos droits de dépôt de garantie"
    takePhotos := "Prenez des photos de l\x27état de la propriété avant d\x27emménager" }

/-- Japanese entry of the `TRANSLATIONS` table. -/
def translationsJa : Translations :=
  { priorities := fun sv => match sv with
      | .high => "高優先度"
      | .medium => "中優先度"
      | .low => "低優先度"
    keepRecords := "大家とのすべてのやり取りの詳細な記録を保管してください"
    knowHotline := "地域の借主権利ホットライン番号を知っておいてください"
    understandDeposit := "敷金の権利を理解してください"
    takePhotos := "入居前に物件の状態の写真を撮ってください" }

/-- Lookup `TRANSLATIONS[selectedLanguage] || TRANSLATIONS.en` (line 262):
the table defines en, ko, es, fr, ja; anything else falls back to English. -/
def translationFor (lang : String) : Translations :=
  if lang = "en" then translationsEn
  else if lang = "ko" then translationsKo
  else if lang = "es" then translationsEs
  else if lang = "fr" then translationsFr
  else if lang = "ja" then translationsJa
  else translationsEn

/-- What the completed view shows for one unfair clause (lines 711-727). -/
structure RenderedClause where
  colorClass : String
  priorityLabel : String
  issue : String
  clauseText : String
  explanation : String
  recommendation : String
  deriving DecidableEq, Repr

/-- What the completed view shows for one tenant right (lines 739-744). -/
structure RenderedRight where
  title : String
  description : String
  deriving DecidableEq, Repr

/-- Rendering of one clause card. -/
def renderClause (t : Translations) (c : UnfairClause) : RenderedClause :=
  { colorClass := getSeverityColor c.severity
    priorityLabel := t.priorities c.severity
    issue := c.issue
    clauseText := c.clause_text
    explanation := c.explanation
    recommendation := c.recommendation }

/-- Rendering of one tenant-right card. -/
def renderRight (r : TenantRight) : RenderedRight :=
  { title := r.title, description := r.description }

/-- The completed view (lines 688-772): score and summary, the clause cards
mapped from the payload in order, the right cards mapped from the payload
in order, and the "What You Should Do" section, whose items are the four
fixed translation strings (the payload `recommendations` array is not
rendered there). -/
structure CompleteView where
  scoreColorClass : String
  score : Int
  summary : String
  clauses : List RenderedClause
  rights : List RenderedRight
  recommendationItems : List String
  deriving DecidableEq, Repr

/-- Render function of the complete branch. -/
def renderComplete (t : Translations) (r : AnalysisResults) : CompleteView :=
  { scoreColorClass := getScoreColor r.analysis.overall_score
    score := r.analysis.overall_score
    summary := r.analysis.plain_english_summary
    clauses := r.analysis.unfair_clauses.map (renderClause t)
    rights := r.analysis.tenant_rights.map renderRight
    recommendationItems :=
      [t.keepRecords, t.knowHotline, t.understandDeposit, t.takePhotos] }

/-- The results section of the component: rendered only when
`uploadStatus === 'complete' && results` (line 688). -/
def viewOf (s : UploaderState) : Option CompleteView :=
  if s.uploadStatus = .complete then
    s.results.map (renderComplete (translationFor s.selectedLanguage))
  else none

/-! ## Report export (`handleDownloadReport`, lines 390-563) -/

/-- The `SUPPORTED_LANGUAGES` table restricted to the fields the report
uses (`code`, `name`). -/
def supportedLanguages : List (String × String) :=
  [("en", "English"), ("es", "Español"), ("fr", "Français"), ("de", "Deutsch"),
   ("it", "Italiano"), ("pt", "Português"), ("zh", "中文"), ("ja", "日本語"),
   ("ko", "한국어"), ("ar", "العربية")]

/-- Evaluation of
`SUPPORTED_LANGUAGES.find(lang => lang.code === selectedLanguage)?.name`
interpolated into a template literal: a missing entry prints as
`undefined`. -/
def findLangName (code : String) : String :=
  match supportedLanguages.find? (fun p => p.1 == code) with
  | some p => p.2
  | none => "undefined"

/-- JavaScript `filename.replace(/\.[^\/.]+$/, '')`: strip a final dot
followed by one or more characters none of which is a dot or a slash. -/
def stripExtension (s : String) : String :=
  let rev := s.data.reverse
  let ext := rev.takeWhile (fun c => c != '.' && c != '/')
  match rev.drop ext.length with
  | '.' :: _ =>
      if ext.isEmpty then s
      else String.mk ((rev.drop (ext.length + 1)).reverse)
  | _ => s

/-- Suffix `selectedLanguage !== 'en' ? `-lang` : ''`. -/
def langSuffix (lang : String) : String :=
  if lang = "en" then "" else "-" ++ lang

/-- Name of the plain-text fallback download. -/
def reportTextFilename (r : AnalysisResults) (lang isoDate : String) : String :=
  "lease-analysis-" ++ stripExtension r.filename ++ langSuffix lang ++
  "-" ++ isoDate ++ ".txt"

/-- Name of the PDF download. -/
def reportPdfFilename (r : AnalysisResults) (lang isoDate : String) : String :=
  "lease-analysis-" ++ stripExtension r.filename ++ langSuffix lang ++
  "-" ++ isoDate ++ ".pdf"

/-- One clause entry of the plain-text fallback template (lines 531-536). -/
def clauseBlock (idx : Nat) (c : UnfairClause) : String :=
  "\n" ++ toString (idx + 1) ++ ". " ++ c.issue ++ " (" ++ c.severity.upper ++
  " PRIORITY)\n   Clause: \"" ++ c.clause_text ++ "\"\n   Explanation: " ++
  c.explanation ++ "\n   Recommended Action: " ++ c.recommendation ++ "\n"

/-- JavaScript `arr.map((clause, index) => ...)` with a running index. -/
def clauseBlocks : Nat → List UnfairClause → List String
  | _, [] => []
  | i, c :: cs => clauseBlock i c :: clauseBlocks (i + 1) cs

/-- One tenant-right entry of the fallback template (lines 539-542). -/
def rightBlock (idx : Nat) (t : TenantRight) : String :=
  "\n" ++ toString (idx + 1) ++ ". " ++ t.title ++ "\n   " ++ t.description ++ "\n"

/-- Indexed map over the tenant rights. -/
def rightBlocks : Nat → List TenantRight → List String
  | _, [] => []
  | i, t :: ts => rightBlock i t :: rightBlocks (i + 1) ts

/-- One recommendation line of the fallback template (line 545). -/
def recLine (idx : Nat) (rec : String) : String :=
  toString (idx + 1) ++ ". " ++ rec

/-- Indexed map over the recommendations. -/
def recLines : Nat → List String → List String
  | _, [] => []
  | i, rec :: recs => recLine i rec :: recLines (i + 1) recs

/-- The plain-text fallback report (template literal, lines 519-550).
`today` is `new Date().toLocaleDateString()`. -/
def fallbackReport (r : AnalysisResults) (today lang : String) : String :=
  "\nLEASE ANALYSIS REPORT\nGenerated: " ++ today ++
  "\nDocument: " ++ r.filename ++
  "\nLanguage: " ++ findLangName lang ++
  "\n\nOVERALL FAIRNESS SCORE: " ++ toString r.analysis.overall_score ++
  "/100\n\nSUMMARY:\n" ++ r.analysis.plain_english_summary ++
  "\n\nPROBLEMATIC CLAUSES (" ++ toString r.analysis.unfair_clauses.length ++
  "):\n" ++ joinSep "\n" (clauseBlocks 0 r.analysis.unfair_clauses) ++
  "\n\nYOUR RIGHTS & OBLIGATIONS:\n" ++
  joinSep "\n" (rightBlocks 0 r.analysis.tenant_rights) ++
  "\n\nRECOMMENDATIONS:\n" ++
  joinSep "\n" (recLines 0 r.analysis.recommendations) ++
  "\n\n---\nGenerated by Lexify\nFor educational purposes only. Consult with a legal professional for specific advice.\n      "

/-- What `handleDownloadReport` hands to the browser. -/
inductive ReportDownload where
  | pdfFile (filename : String)
  | textFile (filename : String) (content : String)
  deriving DecidableEq, Repr

/-- Embedding of `handleDownloadReport`:  with no results it returns early;
otherwise it saves a PDF, falling back to the plain-text blob when the
jsPDF construction throws (`pdfThrows`). -/
def handleDownloadReport (results : Option AnalysisResults) (pdfThrows : Bool)
    (today lang isoDate : String) : Option ReportDownload :=
  match results with
  | none => none
  | some r =>
      if pdfThrows then
        some (.textFile (reportTextFilename r lang isoDate) (fallbackReport r today lang))
      else
        some (.pdfFile (reportPdfFilename r lang isoDate))

/-! ## Substring containment machinery -/

/-- The needle occurs contiguously inside the haystack. -/
def strIn (needle hay : String) : Prop :=
  ∃ pre post : String, hay = pre ++ needle ++ post

/-- Data of a concatenation. -/
theorem strData_append (a b : String) : (a ++ b).data = a.data ++ b.data := rfl

/-- A string occurs inside itself. -/
theorem strIn_refl (s : String) : strIn s s :=
  ⟨"", "", String.ext (by simp [strData_append])⟩

/-- Containment survives appending on the right. -/
theorem strIn_appendL {n a : String} (b : String) (h : strIn n a) : strIn n (a ++ b) := by
  obtain ⟨p, q, hp⟩ := h
  exact ⟨p, q ++ b, by subst hp; exact String.ext (by simp [strData_append])⟩

/-- Containment survives appending on the left. -/
theorem strIn_appendR {n b : String} (a : String) (h : strIn n b) : strIn n (a ++ b) := by
  obtain ⟨p, q, hp⟩ := h
  exact ⟨a ++ p, q, by subst hp; exact String.ext (by simp [strData_append])⟩

/-- A final summand is contained in the concatenation. -/
theorem strIn_end (a x : String) : strIn x (a ++ x) :=
  ⟨a, "", String.ext (by simp [strData_append])⟩

/-- Containment is transitive. -/
theorem strIn_trans {a b c : String} (h1 : strIn a b) (h2 : strIn b c) : strIn a c := by
  obtain ⟨p1, q1, hp1⟩ := h1
  obtain ⟨p2, q2, hp2⟩ := h2
  exact ⟨p2 ++ p1, q1 ++ q2,
    by subst hp1 hp2; exact String.ext (by simp [strData_append])⟩

/-- Every element of a list is contained in the joined string. -/
theorem strIn_joinSep (sep : String) :
    ∀ (l : List String) (x : String), x ∈ l → strIn x (joinSep sep l)
  | [y], x, h => by
      rcases List.mem_singleton.mp h with rfl
      exact strIn_refl x
  | y :: z :: rest, x, h => by
      rcases List.mem_cons.mp h with rfl | h2
      · show strIn x (x ++ sep ++ joinSep sep (z :: rest))
        exact strIn_appendL _ (strIn_appendL _ (strIn_refl x))
      · exact strIn_appendR _ (strIn_joinSep sep (z :: rest) x h2)

/-- Each listed clause contributes a block (at some index). -/
theorem clauseBlocks_mem :
    ∀ (start : Nat) (cs : List UnfairClause) (c : UnfairClause), c ∈ cs →
      ∃ i, clauseBlock i c ∈ clauseBlocks start cs
  | start, d :: rest, c, h => by
      rcases List.mem_cons.mp h with rfl | h2
      · exact ⟨start, List.mem_cons_self _ _⟩
      · obtain ⟨i, hi⟩ := clauseBlocks_mem (start + 1) rest c h2
        exact ⟨i, List.mem_cons_of_mem _ hi⟩

/-- Each listed tenant right contributes a block. -/
theorem rightBlocks_mem :
    ∀ (start : Nat) (ts : List TenantRight) (t : TenantRight), t ∈ ts →
      ∃ i, rightBlock i t ∈ rightBlocks start ts
  | start, d :: rest, t, h => by
      rcases List.mem_cons.mp h with rfl | h2
      · exact ⟨start, List.mem_cons_self _ _⟩
      · obtain ⟨i, hi⟩ := rightBlocks_mem (start + 1) rest t h2
        exact ⟨i, List.mem_cons_of_mem _ hi⟩

/-- Each listed recommendation contributes a line. -/
theorem recLines_mem :
    ∀ (start : Nat) (recs : List String) (rec : String), rec ∈ recs →
      ∃ i, recLine i rec ∈ recLines start recs
  | start, d :: rest, rec, h => by
      rcases List.mem_cons.mp h with rfl | h2
      · exact ⟨start, List.mem_cons_self _ _⟩
      · obtain ⟨i, hi⟩ := recLines_mem (start + 1) rest rec h2
        exact ⟨i, List.mem_cons_of_mem _ hi⟩

/-- The issue text occurs in its clause block. -/
theorem strIn_clauseBlock_issue (i : Nat) (c : UnfairClause) :
    strIn c.issue (clauseBlock i c) :=
  strIn_appendL _ (strIn_appendL _ (strIn_appendL _ (strIn_appendL _
    (strIn_appendL _ (strIn_appendL _ (strIn_appendL _ (strIn_appendL _
      (strIn_appendL _ (strIn_end _ _)))))))))

/-- The upper-cased severity occurs in its clause block. -/
theorem strIn_clauseBlock_severity (i : Nat) (c : UnfairClause) :
    strIn c.severity.upper (clauseBlock i c) :=
  strIn_appendL _ (strIn_appendL _ (strIn_appendL _ (strIn_appendL _
    (strIn_appendL _ (strIn_appendL _ (strIn_appendL _ (strIn_end _ _)))))))

/-- The clause text occurs in its clause block. -/
theorem strIn_clauseBlock_text (i : Nat) (c : UnfairClause) :
    strIn c.clause_text (clauseBlock i c) :=
  strIn_appendL _ (strIn_appendL _ (strIn_appendL _ (strIn_appendL _
    (strIn_appendL _ (strIn_end _ _)))))

/-- The explanation occurs in its clause block. -/
theorem strIn_clauseBlock_explanation (i : Nat) (c : UnfairClause) :
    strIn c.explanation (clauseBlock i c) :=
  strIn_appendL _ (strIn_appendL _ (strIn_appendL _ (strIn_end _ _)))

/-- The recommended action occurs in its clause block. -/
theorem strIn_clauseBlock_recommendation (i : Nat) (c : UnfairClause) :
    strIn c.recommendation (clauseBlock i c) :=
  strIn_appendL _ (strIn_end _ _)

/-- The title occurs in its tenant-right block. -/
theorem strIn_rightBlock_title (i : Nat) (t : TenantRight) :
    strIn t.title (rightBlock i t) :=
  strIn_appendL _ (strIn_appendL _ (strIn_appendL _ (strIn_end _ _)))

/-- The description occurs in its tenant-right block. -/
theorem strIn_rightBlock_description (i : Nat) (t : TenantRight) :
    strIn t.description (rightBlock i t) :=
  strIn_appendL _ (strIn_end _ _)

/-- The recommendation text occurs in its line. -/
theorem strIn_recLine (i : Nat) (rec : String) : strIn rec (recLine i rec) :=
  strIn_end _ _

/-- Lift containment from the joined clause blocks to the full report. -/
theorem strIn_report_of_clauses {x : String} (r : AnalysisResults) (today lang : String)
    (h : strIn x (joinSep "\n" (clauseBlocks 0 r.analysis.unfair_clauses))) :
    strIn x (fallbackReport r today lang) :=
  strIn_appendL _ (strIn_appendL _ (strIn_appendL _ (strIn_appendL _
    (strIn_appendL _ (strIn_appendR _ h)))))

/-- Lift containment from the joined right blocks to the full report. -/
theorem strIn_report_of_rights {x : String} (r : AnalysisResults) (today lang : String)
    (h : strIn x (joinSep "\n" (rightBlocks 0 r.analysis.tenant_rights))) :
    strIn x (fallbackReport r today lang) :=
  strIn_appendL _ (strIn_appendL _ (strIn_appendL _ (strIn_appendR _ h)))

/-- Lift containment from the joined recommendation lines to the full report. -/
theorem strIn_report_of_recs {x : String} (r : AnalysisResults) (today lang : String)
    (h : strIn x (joinSep "\n" (recLines 0 r.analysis.recommendations))) :
    strIn x (fallbackReport r today lang) :=
  strIn_appendL _ (strIn_appendR _ h)

/-- The printed overall score occurs in the report. -/
theorem strIn_report_score (r : AnalysisResults) (today lang : String) :
    strIn (toString r.analysis.overall_score) (fallbackReport r today lang) :=
  strIn_appendL _ (strIn_appendL _ (strIn_appendL _ (strIn_appendL _
    (strIn_appendL _ (strIn_appendL _ (strIn_appendL _ (strIn_appendL _
      (strIn_appendL _ (strIn_appendL _ (strIn_appendL _ (strIn_end _ _)))))))))))

/-- The plain-English summary occurs in the report. -/
theorem strIn_report_summary (r : AnalysisResults) (today lang : String) :
    strIn r.analysis.plain_english_summary (fallbackReport r today lang) :=
  strIn_appendL _ (strIn_appendL _ (strIn_appendL _ (strIn_appendL _
    (strIn_appendL _ (strIn_appendL _ (strIn_appendL _ (strIn_appendL _
      (strIn_appendL _ (strIn_end _ _)))))))))

/-- The serialized filename occurs in the serialized lease context. -/
theorem strIn_ctx_filename (ar : AnalysisResults) :
    strIn (jsonStr ar.filename) (serializeLeaseContext ar) :=
  strIn_appendL _ (strIn_appendL _ (strIn_appendL _ (strIn_appendL _
    (strIn_appendL _ (strIn_appendL _ (strIn_appendL _ (strIn_appendL _
      (strIn_appendL _ (strIn_appendL _ (strIn_appendL _ (strIn_end _ _)))))))))))

/-- The printed overall score occurs in the serialized lease context. -/
theorem strIn_ctx_score (ar : AnalysisResults) :
    strIn (toString ar.analysis.overall_score) (serializeLeaseContext ar) :=
  strIn_appendL _ (strIn_appendL _ (strIn_appendL _ (strIn_appendL _
    (strIn_appendL _ (strIn_appendL _ (strIn_appendL _ (strIn_appendL _
      (strIn_appendL _ (strIn_end _ _)))))))))

/-- Lift containment from the joined serialized clauses to the context. -/
theorem strIn_ctx_of_clauses {x : String} (ar : AnalysisResults)
    (h : strIn x (joinSep "," (ar.analysis.unfair_clauses.map serializeClause))) :
    strIn x (serializeLeaseContext ar) :=
  strIn_appendL _ (strIn_appendL _ (strIn_appendL _ (strIn_appendL _
    (strIn_appendL _ (strIn_appendL _ (strIn_appendL _ (strIn_appendR _ h)))))))

/-- Lift containment from the joined serialized rights to the context. -/
theorem strIn_ctx_of_rights {x : String} (ar : AnalysisResults)
    (h : strIn x (joinSep "," (ar.analysis.tenant_rights.map serializeRight))) :
    strIn x (serializeLeaseContext ar) :=
  strIn_appendL _ (strIn_appendL _ (strIn_appendL _ (strIn_appendL _
    (strIn_appendL _ (strIn_appendR _ h)))))

/-- Lift containment from the joined serialized recommendations to the context. -/
theorem strIn_ctx_of_recs {x : String} (ar : AnalysisResults)
    (h : strIn x (joinSep "," (ar.analysis.recommendations.map jsonStr))) :
    strIn x (serializeLeaseContext ar) :=
  strIn_appendL _ (strIn_appendL _ (strIn_appendL _ (strIn_appendR _ h)))

/-- The serialized summary occurs in the serialized lease context. -/
theorem strIn_ctx_summary (ar : AnalysisResults) :
    strIn (jsonStr ar.analysis.plain_english_summary) (serializeLeaseContext ar) :=
  strIn_appendL _ (strIn_end _ _)

/-! ## General helper lemmas -/

/-- Length of `slice(-k)` is at most `k`. -/
theorem sliceLast_length_le (k : Nat) (xs : List α) : (sliceLast k xs).length ≤ k := by
  simp [sliceLast]; omega

/-- Length of `slice(-k)` is `min k n`. -/
theorem sliceLast_length (k : Nat) (xs : List α) :
    (sliceLast k xs).length = min k xs.length := by
  simp [sliceLast]; omega

/-- `slice(-k)` is a suffix: the original list is some prefix followed by it. -/
theorem sliceLast_suffix (k : Nat) (xs : List α) :
    ∃ pre, xs = pre ++ sliceLast k xs :=
  ⟨xs.take (xs.length - k), (List.take_append_drop _ _).symm⟩

/-- Dropping while a predicate holds of every element empties the list. -/
theorem dropWhile_all {p : Char → Bool} :
    ∀ l : List Char, (∀ c ∈ l, p c = true) → l.dropWhile p = []
  | [], _ => rfl
  | c :: rest, h => by
      have hc := h c (List.mem_cons_self _ _)
      rw [List.dropWhile_cons, if_pos hc]
      exact dropWhile_all rest (fun d hd => h d (List.mem_cons_of_mem _ hd))

/-- A string whose characters are all JavaScript white space trims to the
empty string (this covers the empty string itself). -/
theorem jsTrim_of_all_ws {s : String} (h : ∀ c ∈ s.data, jsWhitespace c = true) :
    jsTrim s = "" := by
  unfold jsTrim trimChars
  rw [dropWhile_all s.data h]
  rfl

/-- filterMap over a replicated element that maps to `none` is empty. -/
theorem filterMap_replicate_none {α β : Type} (f : α → Option β) (a : α)
    (hf : f a = none) : ∀ n, (List.replicate n a).filterMap f = []
  | 0 => rfl
  | n + 1 => by
      rw [List.replicate_succ, List.filterMap_cons, hf]
      exact filterMap_replicate_none f a hf n

/-- applyTrace distributes over trace concatenation. -/
theorem applyTrace_append (s : UploaderState) (tr1 tr2 : List UploadEvent) :
    applyTrace s (tr1 ++ tr2) = applyTrace (applyTrace s tr1) tr2 :=
  List.foldl_append ..

/-- Interval ticks only touch `progress`. -/
theorem applyTrace_ticks_fields :
    ∀ (n : Nat) (s : UploaderState),
      (applyTrace s (List.replicate n .progressTick)).uploadStatus = s.uploadStatus ∧
      (applyTrace s (List.replicate n .progressTick)).results = s.results ∧
      (applyTrace s (List.replicate n .progressTick)).error = s.error ∧
      (applyTrace s (List.replicate n .progressTick)).selectedLanguage = s.selectedLanguage
  | 0, s => ⟨rfl, rfl, rfl, rfl⟩
  | n + 1, s => by
      have h := applyTrace_ticks_fields n (applyEvent s .progressTick)
      simpa [List.replicate_succ, applyTrace, applyEvent] using h

/-- Strings with different first characters differ. -/
theorem strHeadNe {s t : String} (h : s.data.head? ≠ t.data.head?) : s ≠ t :=
  fun he => h (by rw [he])

/-! ## Concrete sample data used by witnesses and counterexamples -/

/-- A concrete problematic clause. -/
def sampleClause : UnfairClause :=
  { clause_text := "Tenant waives all rights to the security deposit."
    issue := "Deposit waiver"
    severity := .high
    explanation := "This clause attempts to remove statutory deposit protections."
    recommendation := "Ask for the clause to be struck." }

/-- A concrete tenant right. -/
def sampleRight : TenantRight :=
  { title := "Right to habitable housing"
    description := "The landlord must keep the unit habitable."
    importance := .high }

/-- A concrete analysis payload. -/
def sampleResults : AnalysisResults :=
  { document_id := 7
    filename := "lease.pdf"
    analysis :=
      { unfair_clauses := [sampleClause]
        plain_english_summary := "The lease is mostly standard with one serious problem."
        tenant_rights := [sampleRight]
        recommendations := ["Request a written move-in checklist"]
        overall_score := 60 } }

/-- A small acceptable file. -/
def sampleFile : FileInfo := { name := "lease.pdf", size := 2048 }

/-- A file one byte over the 10MB limit. -/
def oversizeFile : FileInfo := { name := "big.pdf", size := 10 * 1024 * 1024 + 1 }

/-- A seven-message prior conversation. -/
def sampleHistory : List ChatMessage :=
  (List.range 7).map (fun i => { role := .user, content := toString i, timestamp := none })

/-! ## Request-shape lemmas for the chat widgets -/

/-- The requests issued by one `AnalysisChatBot.sendMessage` call: none when
the trimmed input is empty, otherwise exactly the context-bundling request. -/
theorem ACB_requests (env : Option String) (ar : AnalysisResults)
    (msgs : List ChatMessage) (input : String) (tU tA : Nat) (outc : ChatOutcome) :
    (AnalysisChatBot.sendMessage env ar msgs input tU tA outc).requests =
      if jsTrim input = "" then [] else
        [{ url := resolveApiUrl env ++ "/api/chat"
           message := input ++ "\n\nLEASE CONTEXT: " ++ serializeLeaseContext ar
           document_id := some ar.document_id
           chat_history := sliceLast 5 msgs }] := by
  by_cases h : jsTrim input = ""
  · simp [AnalysisChatBot.sendMessage, h]
  · cases outc <;> simp [AnalysisChatBot.sendMessage, h]

/-- The requests issued by one `ChatBot.sendMessage` call. -/
theorem CB_requests (env : Option String) (msgs : List ChatMessage)
    (input : String) (tU tA : Nat) (outc : ChatOutcome) :
    (ChatBot.sendMessage env msgs input tU tA outc).requests =
      if jsTrim input = "" then [] else
        [{ url := resolveApiUrl env ++ "/api/chat"
           message := input
           document_id := none
           chat_history := sliceLast 5 msgs }] := by
  by_cases h : jsTrim input = ""
  · simp [ChatBot.sendMessage, h]
  · cases outc <;> simp [ChatBot.sendMessage, h]

/-! ## First-character facts about the contextual questions -/

/-- scoreQuestion starts with the letter M. -/
theorem scoreQuestion_head (ar : AnalysisResults) :
    (scoreQuestion ar).data.head? = some 'M' := rfl

/-- clausesQuestion starts with the letter W. -/
theorem clausesQuestion_head (ar : AnalysisResults) :
    (clausesQuestion ar).data.head? = some 'W' := rfl

/-- The score question differs from the clause-count question. -/
theorem scoreQ_ne_clausesQ (ar ar' : AnalysisResults) :
    scoreQuestion ar ≠ clausesQuestion ar' :=
  strHeadNe (by rw [scoreQuestion_head, clausesQuestion_head]; decide)

/-- The score question differs from the high-priority question. -/
theorem scoreQ_ne_highQ (ar : AnalysisResults) :
    scoreQuestion ar ≠ highPriorityQuestion :=
  strHeadNe (by rw [scoreQuestion_head]; decide)

/-- The score question differs from the explain question. -/
theorem scoreQ_ne_explainQ (ar : AnalysisResults) :
    scoreQuestion ar ≠ explainQuestion :=
  strHeadNe (by rw [scoreQuestion_head]; decide)

/-- The score question differs from the next-step question. -/
theorem scoreQ_ne_nextStepQ (ar : AnalysisResults) :
    scoreQuestion ar ≠ nextStepQuestion :=
  strHeadNe (by rw [scoreQuestion_head]; decide)

/-- The score question differs from the legality question. -/
theorem scoreQ_ne_legalQ (ar : AnalysisResults) :
    scoreQuestion ar ≠ legalQuestion :=
  strHeadNe (by rw [scoreQuestion_head]; decide)

/-- The high-priority question differs from the clause-count question. -/
theorem highQ_ne_clausesQ (ar : AnalysisResults) :
    highPriorityQuestion ≠ clausesQuestion ar :=
  strHeadNe (by rw [clausesQuestion_head]; decide)

/-- The high-priority question differs from the score question. -/
theorem highQ_ne_scoreQ (ar : AnalysisResults) :
    highPriorityQuestion ≠ scoreQuestion ar :=
  (scoreQ_ne_highQ ar).symm

/-- The high-priority question differs from the three fixed tail questions. -/
theorem highQ_ne_fixed :
    highPriorityQuestion ≠ explainQuestion ∧
    highPriorityQuestion ≠ nextStepQuestion ∧
    highPriorityQuestion ≠ legalQuestion := by
  refine ⟨?_, ?_, ?_⟩ <;> decide

/-- The error message shown on a failed upload is never empty. -/
theorem uploadErrorMessage_ne_empty (detail : Option String) :
    uploadErrorMessage detail ≠ "" := by
  cases detail with
  | none => decide
  | some d =>
      by_cases h : d = ""
      · simp [uploadErrorMessage, h]
        decide
      · simp [uploadErrorMessage, h]

/-- Interval ticks set no status. -/
theorem statusOfEvent_ticks (n : Nat) :
    (List.replicate n UploadEvent.progressTick).filterMap statusOfEvent = [] :=
  filterMap_replicate_none statusOfEvent UploadEvent.progressTick rfl n
/-! ## Claims about the upload flow -/

/-- C1: a file over 10MB (10 * 1024 * 1024 bytes) is rejected client-side by
`onDrop`: no request to `/api/upload-document` is issued, the component
state is untouched, the status stays `idle` and the progress is unchanged. -/
theorem c1_oversize_rejected (env : Option String) (s : UploaderState)
    (files : List FileInfo) (outcome : UploadOutcome) (ticks : Nat) (file : FileInfo)
    (hstat : s.uploadStatus = .idle)
    (hfile : files.head? = some file)
    (hsize : 10 * 1024 * 1024 < file.size) :
    requestsOf (uiTrace env s (.drop files outcome ticks)) = [] ∧
    stepUI env s (.drop files outcome ticks) = s ∧
    (stepUI env s (.drop files outcome ticks)).uploadStatus = .idle ∧
    (stepUI env s (.drop files outcome ticks)).progress = s.progress := by
  have htr : uiTrace env s (.drop files outcome ticks) =
      [.toastError oversizeToast] := by
    simp [uiTrace, hstat, onDropTrace, hfile, hsize]
  refine ⟨?_, ?_, ?_, ?_⟩ <;>
    simp [htr, requestsOf, stepUI, applyTrace, applyEvent, hstat]

/-- Witness for C1: a concrete 10MB+1 file dropped on a fresh component. -/
theorem c1_witness :
    requestsOf (uiTrace none initialUploaderState
      (.drop [oversizeFile] (.failure none) 0)) = [] ∧
    stepUI none initialUploaderState (.drop [oversizeFile] (.failure none) 0) =
      initialUploaderState ∧
    (stepUI none initialUploaderState
      (.drop [oversizeFile] (.failure none) 0)).uploadStatus = .idle ∧
    (stepUI none initialUploaderState
      (.drop [oversizeFile] (.failure none) 0)).progress =
      initialUploaderState.progress :=
  c1_oversize_rejected none initialUploaderState [oversizeFile] (.failure none) 0
    oversizeFile rfl rfl (by decide)

/-- C6: every status transition follows an edge of
idle→uploading→processing→complete|error, error→idle; a drop is ignored
unless the status is idle; and for an accepted drop the `processing` status
is set strictly before the server response arrives. -/
theorem c6_status_machine (env : Option String) (s : UploaderState) (e : UIEvent) :
    chainOk (statusesOf s.uploadStatus (uiTrace env s e)) = true ∧
    (s.uploadStatus ≠ .idle →
      ∀ files outcome ticks, uiTrace env s (.drop files outcome ticks) = []) ∧
    (s.uploadStatus = .idle →
      ∀ files outcome ticks file, files.head? = some file →
        file.size ≤ 10 * 1024 * 1024 →
        ∃ pre post,
          uiTrace env s (.drop files outcome ticks) =
            pre ++ UploadEvent.responseReceived :: post ∧
          UploadEvent.setStatus .processing ∈ pre ∧
          UploadEvent.responseReceived ∉ pre) := by
  have hstatuses : ∀ st : UploadStatus, ∀ files outcome ticks,
      st = .idle →
      chainOk (statusesOf st (onDropTrace env files outcome ticks)) = true := by
    intro st files outcome ticks hst
    subst hst
    cases hf : files.head? with
    | none => simp [onDropTrace, hf, statusesOf, chainOk]
    | some file =>
        by_cases hsz : 10 * 1024 * 1024 < file.size
        · simp [onDropTrace, hf, hsz, statusesOf, chainOk]
        · cases outcome <;>
            simp [onDropTrace, hf, hsz, statusesOf, statusOfEvent, List.filterMap_append,
              statusOfEvent_ticks, chainOk, allowedEdge]
  refine ⟨?_, ?_, ?_⟩
  · cases e with
    | drop files outcome ticks =>
        by_cases h : s.uploadStatus = .idle
        · rw [uiTrace, if_pos h]
          exact hstatuses s.uploadStatus files outcome ticks h
        · simp [uiTrace, h, statusesOf, chainOk]
    | retryClick =>
        by_cases h : s.uploadStatus = .error
        · simp [uiTrace, h, retryTrace, statusesOf, chainOk, allowedEdge]
        · simp [uiTrace, h, statusesOf, chainOk]
  · intro h files outcome ticks
    simp [uiTrace, h]
  · intro h files outcome ticks file hf hsz
    have hn : ¬ 10 * 1024 * 1024 < file.size := Nat.not_lt.mpr hsz
    refine ⟨[UploadEvent.setStatus .uploading, UploadEvent.setProgress 20,
             UploadEvent.setStatus .processing,
             UploadEvent.request (resolveApiUrl env ++ "/api/upload-document")] ++
            List.replicate ticks UploadEvent.progressTick,
            (match outcome with
             | .success r =>
                 [UploadEvent.setProgress 100, UploadEvent.setResults r,
                  UploadEvent.setStatus .complete,
                  UploadEvent.toastSuccess "Document analyzed successfully!"]
             | .failure detail =>
                 [UploadEvent.setStatus .error,
                  UploadEvent.setError (uploadErrorMessage detail),
                  UploadEvent.toastError (uploadErrorMessage detail)]), ?_, ?_, ?_⟩
    · cases outcome <;> simp [uiTrace, h, onDropTrace, hf, hn]
    · simp
    · simp [List.mem_replicate]

/-- Witness for C6: a concrete successful drop from the initial state. -/
theorem c6_witness :
    chainOk (statusesOf initialUploaderState.uploadStatus
      (uiTrace none initialUploaderState
        (.drop [sampleFile] (.success sampleResults) 2))) = true :=
  (c6_status_machine none initialUploaderState
    (.drop [sampleFile] (.success sampleResults) 2)).1

/-- Decomposition of the trace of an accepted drop. -/
theorem onDropTrace_accepted (env : Option String) (files : List FileInfo)
    (outcome : UploadOutcome) (ticks : Nat) (file : FileInfo)
    (hf : files.head? = some file) (hn : ¬ 10 * 1024 * 1024 < file.size) :
    onDropTrace env files outcome ticks =
      ([UploadEvent.setStatus .uploading, UploadEvent.setProgress 20,
        UploadEvent.setStatus .processing,
        UploadEvent.request (resolveApiUrl env ++ "/api/upload-document")] ++
       List.replicate ticks UploadEvent.progressTick) ++
      (UploadEvent.responseReceived ::
        (match outcome with
         | .success r =>
             [UploadEvent.setProgress 100, UploadEvent.setResults r,
              UploadEvent.setStatus .complete,
              UploadEvent.toastSuccess "Document analyzed successfully!"]
         | .failure detail =>
             [UploadEvent.setStatus .error,
              UploadEvent.setError (uploadErrorMessage detail),
              UploadEvent.toastError (uploadErrorMessage detail)])) := by
  cases outcome <;> simp [onDropTrace, hf, hn]

/-- C5: a failed upload (non-2xx response or network failure, both of which
reject the awaited axios promise) drives the state to `error` with the
error message set, and the Try Again action returns to `idle` with the
progress reset to 0 and the error cleared. -/
theorem c5_error_then_retry (env : Option String) (s : UploaderState)
    (files : List FileInfo) (ticks : Nat) (file : FileInfo) (detail : Option String)
    (hstat : s.uploadStatus = .idle)
    (hfile : files.head? = some file)
    (hsize : file.size ≤ 10 * 1024 * 1024) :
    (stepUI env s (.drop files (.failure detail) ticks)).uploadStatus = .error ∧
    (stepUI env s (.drop files (.failure detail) ticks)).error =
      some (uploadErrorMessage detail) ∧
    uploadErrorMessage detail ≠ "" ∧
    (stepUI env (stepUI env s (.drop files (.failure detail) ticks))
      .retryClick).uploadStatus = .idle ∧
    (stepUI env (stepUI env s (.drop files (.failure detail) ticks))
      .retryClick).progress = 0 ∧
    (stepUI env (stepUI env s (.drop files (.failure detail) ticks))
      .retryClick).error = none := by
  have hn : ¬ 10 * 1024 * 1024 < file.size := Nat.not_lt.mpr hsize
  have hs1 : stepUI env s (.drop files (.failure detail) ticks) =
      { applyTrace (applyTrace s
          [UploadEvent.setStatus .uploading, UploadEvent.setProgress 20,
           UploadEvent.setStatus .processing,
           UploadEvent.request (resolveApiUrl env ++ "/api/upload-document")])
          (List.replicate ticks UploadEvent.progressTick) with
        uploadStatus := UploadStatus.error,
        error := some (uploadErrorMessage detail) } := by
    simp only [stepUI, uiTrace]
    rw [if_pos hstat,
      onDropTrace_accepted env files (.failure detail) ticks file hfile hn,
      applyTrace_append, applyTrace_append]
    rfl
  have h1 : (stepUI env s (.drop files (.failure detail) ticks)).uploadStatus =
      .error := by rw [hs1]
  have hret : uiTrace env (stepUI env s (.drop files (.failure detail) ticks))
      .retryClick = retryTrace := by
    simp [uiTrace, h1]
  have hfinal : stepUI env (stepUI env s (.drop files (.failure detail) ticks))
      .retryClick =
      { stepUI env s (.drop files (.failure detail) ticks) with
        uploadStatus := UploadStatus.idle, error := none, progress := 0 } := by
    show applyTrace (stepUI env s (.drop files (.failure detail) ticks))
        (uiTrace env (stepUI env s (.drop files (.failure detail) ticks))
          .retryClick) = _
    rw [hret]
    rfl
  refine ⟨h1, by rw [hs1], uploadErrorMessage_ne_empty detail, ?_, ?_, ?_⟩
  · rw [hfinal]
  · rw [hfinal]
  · rw [hfinal]

/-- Witness for C5: a concrete failing upload followed by Try Again. -/
theorem c5_witness :
    (stepUI none initialUploaderState
      (.drop [sampleFile] (.failure (some "Bad file")) 0)).uploadStatus = .error ∧
    (stepUI none initialUploaderState
      (.drop [sampleFile] (.failure (some "Bad file")) 0)).error =
      some (uploadErrorMessage (some "Bad file")) ∧
    uploadErrorMessage (some "Bad file") ≠ "" ∧
    (stepUI none (stepUI none initialUploaderState
      (.drop [sampleFile] (.failure (some "Bad file")) 0))
      .retryClick).uploadStatus = .idle ∧
    (stepUI none (stepUI none initialUploaderState
      (.drop [sampleFile] (.failure (some "Bad file")) 0))
      .retryClick).progress = 0 ∧
    (stepUI none (stepUI none initialUploaderState
      (.drop [sampleFile] (.failure (some "Bad file")) 0))
      .retryClick).error = none :=
  c5_error_then_retry none initialUploaderState [sampleFile] 0 sampleFile
    (some "Bad file") rfl rfl (by decide)

/-- C2 (amended): a successful upload response drives the state to
`complete`, and the completed view shows exactly the payload clauses and
tenant rights, in payload order and with all their fields; the
"What You Should Do" section, however, shows the four fixed localized tips
rather than the payload `recommendations` array. -/
theorem c2_success_renders_payload (env : Option String) (s : UploaderState)
    (files : List FileInfo) (ticks : Nat) (file : FileInfo) (r : AnalysisResults)
    (hstat : s.uploadStatus = .idle)
    (hfile : files.head? = some file)
    (hsize : file.size ≤ 10 * 1024 * 1024) :
    (stepUI env s (.drop files (.success r) ticks)).uploadStatus = .complete ∧
    (stepUI env s (.drop files (.success r) ticks)).results = some r ∧
    viewOf (stepUI env s (.drop files (.success r) ticks)) =
      some (renderComplete (translationFor s.selectedLanguage) r) ∧
    (renderComplete (translationFor s.selectedLanguage) r).clauses =
      r.analysis.unfair_clauses.map (renderClause (translationFor s.selectedLanguage)) ∧
    (renderComplete (translationFor s.selectedLanguage) r).clauses.map
      RenderedClause.issue = r.analysis.unfair_clauses.map UnfairClause.issue ∧
    (renderComplete (translationFor s.selectedLanguage) r).clauses.map
      RenderedClause.clauseText =
      r.analysis.unfair_clauses.map UnfairClause.clause_text ∧
    (renderComplete (translationFor s.selectedLanguage) r).clauses.map
      RenderedClause.explanation =
      r.analysis.unfair_clauses.map UnfairClause.explanation ∧
    (renderComplete (translationFor s.selectedLanguage) r).clauses.map
      RenderedClause.recommendation =
      r.analysis.unfair_clauses.map UnfairClause.recommendation ∧
    (renderComplete (translationFor s.selectedLanguage) r).rights.map
      RenderedRight.title = r.analysis.tenant_rights.map TenantRight.title ∧
    (renderComplete (translationFor s.selectedLanguage) r).rights.map
      RenderedRight.description =
      r.analysis.tenant_rights.map TenantRight.description ∧
    (renderComplete (translationFor s.selectedLanguage) r).recommendationItems =
      [(translationFor s.selectedLanguage).keepRecords,
       (translationFor s.selectedLanguage).knowHotline,
       (translationFor s.selectedLanguage).understandDeposit,
       (translationFor s.selectedLanguage).takePhotos] := by
  have hn : ¬ 10 * 1024 * 1024 < file.size := Nat.not_lt.mpr hsize
  have hs1 : stepUI env s (.drop files (.success r) ticks) =
      { applyTrace (applyTrace s
          [UploadEvent.setStatus .uploading, UploadEvent.setProgress 20,
           UploadEvent.setStatus .processing,
           UploadEvent.request (resolveApiUrl env ++ "/api/upload-document")])
          (List.replicate ticks UploadEvent.progressTick) with
        progress := 100, results := some r,
        uploadStatus := UploadStatus.complete } := by
    simp only [stepUI, uiTrace]
    rw [if_pos hstat,
      onDropTrace_accepted env files (.success r) ticks file hfile hn,
      applyTrace_append, applyTrace_append]
    rfl
  have hlang : (applyTrace (applyTrace s
      [UploadEvent.setStatus .uploading, UploadEvent.setProgress 20,
       UploadEvent.setStatus .processing,
       UploadEvent.request (resolveApiUrl env ++ "/api/upload-document")])
      (List.replicate ticks UploadEvent.progressTick)).selectedLanguage =
      s.selectedLanguage := by
    rw [(applyTrace_ticks_fields ticks _).2.2.2]
    rfl
  refine ⟨by rw [hs1], by rw [hs1], ?_, rfl, ?_, ?_, ?_, ?_, ?_, ?_, rfl⟩
  · rw [hs1]
    simp [viewOf, hlang]
  all_goals
    simp [renderComplete, renderClause, renderRight, List.map_map, Function.comp]

/-- Counterexample to C2 as stated: after a successful upload of a payload
whose `recommendations` array is `["Request a written move-in checklist"]`,
the completed view's "What You Should Do" section shows the four fixed
English tips; the payload recommendation is not rendered, so the view does
not show exactly the payload recommendations. -/
theorem c2_counterexample :
    (stepUI none initialUploaderState
      (.drop [sampleFile] (.success sampleResults) 0)).uploadStatus = .complete ∧
    viewOf (stepUI none initialUploaderState
      (.drop [sampleFile] (.success sampleResults) 0)) =
      some (renderComplete translationsEn sampleResults) ∧
    (renderComplete translationsEn sampleResults).recommendationItems ≠
      sampleResults.analysis.recommendations ∧
    "Request a written move-in checklist" ∈
      sampleResults.analysis.recommendations ∧
    "Request a written move-in checklist" ∉
      (renderComplete translationsEn sampleResults).recommendationItems := by
  refine ⟨?_, ?_, ?_, ?_, ?_⟩ <;> decide

/-- Witness for C2 at a concrete successful upload. -/
theorem c2_witness :
    (stepUI none initialUploaderState
      (.drop [sampleFile] (.success sampleResults) 1)).uploadStatus = .complete ∧
    viewOf (stepUI none initialUploaderState
      (.drop [sampleFile] (.success sampleResults) 1)) =
      some (renderComplete
        (translationFor initialUploaderState.selectedLanguage) sampleResults) :=
  ⟨(c2_success_renders_payload none initialUploaderState [sampleFile] 1 sampleFile
      sampleResults rfl rfl (by decide)).1,
   (c2_success_renders_payload none initialUploaderState [sampleFile] 1 sampleFile
      sampleResults rfl rfl (by decide)).2.2.1⟩

/-! ## Claims about the chat widgets -/

/-- C3: every chat request either widget sends carries at most the last five
messages of the captured conversation list: `chat_history` is exactly the
last `min 5 n` elements, in order, as a suffix. -/
theorem c3_chat_history_last_five (env env2 : Option String) (ar : AnalysisResults)
    (msgs msgs2 : List ChatMessage) (input input2 : String) (tU tA tU2 tA2 : Nat)
    (outc outc2 : ChatOutcome) (req req2 : ChatRequest)
    (h1 : req ∈ (AnalysisChatBot.sendMessage env ar msgs input tU tA outc).requests)
    (h2 : req2 ∈ (ChatBot.sendMessage env2 msgs2 input2 tU2 tA2 outc2).requests) :
    (req.chat_history.length ≤ 5 ∧
     req.chat_history = msgs.drop (msgs.length - 5) ∧
     req.chat_history.length = min 5 msgs.length ∧
     ∃ pre, msgs = pre ++ req.chat_history) ∧
    (req2.chat_history.length ≤ 5 ∧
     req2.chat_history = msgs2.drop (msgs2.length - 5) ∧
     req2.chat_history.length = min 5 msgs2.length ∧
     ∃ pre, msgs2 = pre ++ req2.chat_history) := by
  rw [ACB_requests] at h1
  rw [CB_requests] at h2
  constructor
  · by_cases ha : jsTrim input = ""
    · rw [if_pos ha] at h1
      exact absurd h1 (List.not_mem_nil _)
    · rw [if_neg ha] at h1
      obtain rfl := List.mem_singleton.mp h1
      exact ⟨sliceLast_length_le 5 msgs, rfl, sliceLast_length 5 msgs,
        sliceLast_suffix 5 msgs⟩
  · by_cases hb : jsTrim input2 = ""
    · rw [if_pos hb] at h2
      exact absurd h2 (List.not_mem_nil _)
    · rw [if_neg hb] at h2
      obtain rfl := List.mem_singleton.mp h2
      exact ⟨sliceLast_length_le 5 msgs2, rfl, sliceLast_length 5 msgs2,
        sliceLast_suffix 5 msgs2⟩

/-- The concrete analysis-chat request of the C3 witness. -/
def sampleAcbRequest : ChatRequest :=
  { url := resolveApiUrl none ++ "/api/chat"
    message := "hi" ++ "\n\nLEASE CONTEXT: " ++ serializeLeaseContext sampleResults
    document_id := some sampleResults.document_id
    chat_history := sliceLast 5 sampleHistory }

/-- The concrete generic-chat request of the C3 witness. -/
def sampleCbRequest : ChatRequest :=
  { url := resolveApiUrl none ++ "/api/chat"
    message := "hello"
    document_id := none
    chat_history := sliceLast 5 sampleHistory }

/-- Witness for C3 on a seven-message history in both widgets. -/
theorem c3_witness :
    (sampleAcbRequest.chat_history.length ≤ 5 ∧
     sampleAcbRequest.chat_history =
       sampleHistory.drop (sampleHistory.length - 5) ∧
     sampleAcbRequest.chat_history.length = min 5 sampleHistory.length ∧
     ∃ pre, sampleHistory = pre ++ sampleAcbRequest.chat_history) ∧
    (sampleCbRequest.chat_history.length ≤ 5 ∧
     sampleCbRequest.chat_history =
       sampleHistory.drop (sampleHistory.length - 5) ∧
     sampleCbRequest.chat_history.length = min 5 sampleHistory.length ∧
     ∃ pre, sampleHistory = pre ++ sampleCbRequest.chat_history) :=
  c3_chat_history_last_five none none sampleResults sampleHistory sampleHistory
    "hi" "hello" 0 1 0 1 (.err none) (.err none) sampleAcbRequest sampleCbRequest
    (by
      rw [ACB_requests, if_neg (by decide : ¬ jsTrim "hi" = "")]
      exact List.mem_singleton.mpr rfl)
    (by
      rw [CB_requests, if_neg (by decide : ¬ jsTrim "hello" = "")]
      exact List.mem_singleton.mpr rfl)

/-- C9: a message that is empty or all white space makes `sendMessage` a
no-op in both widgets: the message list is unchanged, no request is issued
and the loading flag is never set. -/
theorem c9_blank_message_noop (env env2 : Option String) (ar : AnalysisResults)
    (msgs msgs2 : List ChatMessage) (input : String) (tU tA tU2 tA2 : Nat)
    (outc outc2 : ChatOutcome)
    (h : ∀ c ∈ input.data, jsWhitespace c = true) :
    AnalysisChatBot.sendMessage env ar msgs input tU tA outc =
      { messages := msgs, requests := [], loadingSet := false } ∧
    ChatBot.sendMessage env2 msgs2 input tU2 tA2 outc2 =
      { messages := msgs2, requests := [], loadingSet := false } := by
  have ht := jsTrim_of_all_ws h
  exact ⟨by simp [AnalysisChatBot.sendMessage, ht],
         by simp [ChatBot.sendMessage, ht]⟩

/-- Witness for C9 on the all-blank input of two spaces. -/
theorem c9_witness :
    AnalysisChatBot.sendMessage none sampleResults [] "  " 0 1 (.err none) =
      { messages := [], requests := [], loadingSet := false } ∧
    ChatBot.sendMessage none [] "  " 0 1 (.err none) =
      { messages := [], requests := [], loadingSet := false } :=
  c9_blank_message_noop none none sampleResults [] [] "  " 0 1 0 1
    (.err none) (.err none) (by decide)

/-- Counterexample to C8 as stated: the single-space message is non-empty,
yet `sendMessage` in the analysis chat issues no request for it (the guard
trims the input first). -/
theorem c8_counterexample :
    (" " : String) ≠ "" ∧
    (AnalysisChatBot.sendMessage none sampleResults [] " " 0 1
      (.err none)).requests = [] := by
  constructor
  · decide
  · rw [ACB_requests, if_pos (by decide : jsTrim " " = "")]

/-- C8 (amended): for every message whose trimmed text is non-empty, the
analysis chat issues exactly one request to `/api/chat`, whose message
field is the user text followed by the serialized lease-context snapshot
(which contains the filename, overall score, every problematic clause with
issue/severity/clause text/explanation/recommendation, every tenant right,
every recommendation, and the summary), with the last five prior turns as
`chat_history`. -/
theorem c8_context_bundled (env : Option String) (ar : AnalysisResults)
    (msgs : List ChatMessage) (input : String) (tU tA : Nat) (outc : ChatOutcome)
    (h : jsTrim input ≠ "") :
    (AnalysisChatBot.sendMessage env ar msgs input tU tA outc).requests =
      [{ url := resolveApiUrl env ++ "/api/chat"
         message := input ++ "\n\nLEASE CONTEXT: " ++ serializeLeaseContext ar
         document_id := some ar.document_id
         chat_history := sliceLast 5 msgs }] ∧
    strIn (jsonStr ar.filename) (serializeLeaseContext ar) ∧
    strIn (toString ar.analysis.overall_score) (serializeLeaseContext ar) ∧
    (∀ c ∈ ar.analysis.unfair_clauses,
      strIn (serializeClause c) (serializeLeaseContext ar)) ∧
    (∀ t ∈ ar.analysis.tenant_rights,
      strIn (serializeRight t) (serializeLeaseContext ar)) ∧
    (∀ rec ∈ ar.analysis.recommendations,
      strIn (jsonStr rec) (serializeLeaseContext ar)) ∧
    strIn (jsonStr ar.analysis.plain_english_summary) (serializeLeaseContext ar) := by
  refine ⟨by rw [ACB_requests, if_neg h], strIn_ctx_filename ar, strIn_ctx_score ar,
    ?_, ?_, ?_, strIn_ctx_summary ar⟩
  · intro c hc
    exact strIn_ctx_of_clauses ar
      (strIn_joinSep "," _ _ (List.mem_map_of_mem serializeClause hc))
  · intro t ht
    exact strIn_ctx_of_rights ar
      (strIn_joinSep "," _ _ (List.mem_map_of_mem serializeRight ht))
  · intro rec hrec
    exact strIn_ctx_of_recs ar
      (strIn_joinSep "," _ _ (List.mem_map_of_mem jsonStr hrec))

/-- Witness for C8 on the concrete message "hi". -/
theorem c8_witness :
    (AnalysisChatBot.sendMessage none sampleResults [] "hi" 0 1
      (.err none)).requests =
      [{ url := resolveApiUrl none ++ "/api/chat"
         message := "hi" ++ "\n\nLEASE CONTEXT: " ++
           serializeLeaseContext sampleResults
         document_id := some sampleResults.document_id
         chat_history := sliceLast 5 ([] : List ChatMessage) }] :=
  (c8_context_bundled none sampleResults [] "hi" 0 1 (.err none) (by decide)).1

/-! ## Claims about rendering and export -/

/-- C7: the severity-to-badge-colour mapping is a total deterministic
function on the three severities: high is red styling, medium is yellow
styling, low is blue styling. -/
theorem c7_severity_colors :
    getSeverityColor .high = "text-red-600 bg-red-50 border-red-200" ∧
    getSeverityColor .medium = "text-yellow-600 bg-yellow-50 border-yellow-200" ∧
    getSeverityColor .low = "text-blue-600 bg-blue-50 border-blue-200" ∧
    ∀ sv : Severity, sv = .high ∨ sv = .medium ∨ sv = .low := by
  refine ⟨rfl, rfl, rfl, ?_⟩
  intro sv
  cases sv <;> simp

/-- C4: when the jsPDF construction throws, `handleDownloadReport` falls
back to a plain-text download whose content contains the overall score, the
summary, every unfair clause field (issue, severity, clause text,
explanation, recommendation), every tenant right (title and description)
and every recommendation of the `AnalysisResults`. -/
theorem c4_pdf_fallback_content (r : AnalysisResults) (today lang isoDate : String) :
    handleDownloadReport (some r) true today lang isoDate =
      some (.textFile (reportTextFilename r lang isoDate)
        (fallbackReport r today lang)) ∧
    strIn (toString r.analysis.overall_score) (fallbackReport r today lang) ∧
    strIn r.analysis.plain_english_summary (fallbackReport r today lang) ∧
    (∀ c ∈ r.analysis.unfair_clauses,
      strIn c.issue (fallbackReport r today lang) ∧
      strIn c.severity.upper (fallbackReport r today lang) ∧
      strIn c.clause_text (fallbackReport r today lang) ∧
      strIn c.explanation (fallbackReport r today lang) ∧
      strIn c.recommendation (fallbackReport r today lang)) ∧
    (∀ t ∈ r.analysis.tenant_rights,
      strIn t.title (fallbackReport r today lang) ∧
      strIn t.description (fallbackReport r today lang)) ∧
    (∀ rec ∈ r.analysis.recommendations,
      strIn rec (fallbackReport r today lang)) := by
  refine ⟨rfl, strIn_report_score r today lang, strIn_report_summary r today lang,
    ?_, ?_, ?_⟩
  · intro c hc
    obtain ⟨i, hi⟩ := clauseBlocks_mem 0 _ c hc
    have hb := strIn_joinSep "\n" _ _ hi
    exact ⟨strIn_report_of_clauses r today lang
        (strIn_trans (strIn_clauseBlock_issue i c) hb),
      strIn_report_of_clauses r today lang
        (strIn_trans (strIn_clauseBlock_severity i c) hb),
      strIn_report_of_clauses r today lang
        (strIn_trans (strIn_clauseBlock_text i c) hb),
      strIn_report_of_clauses r today lang
        (strIn_trans (strIn_clauseBlock_explanation i c) hb),
      strIn_report_of_clauses r today lang
        (strIn_trans (strIn_clauseBlock_recommendation i c) hb)⟩
  · intro t ht
    obtain ⟨i, hi⟩ := rightBlocks_mem 0 _ t ht
    have hb := strIn_joinSep "\n" _ _ hi
    exact ⟨strIn_report_of_rights r today lang
        (strIn_trans (strIn_rightBlock_title i t) hb),
      strIn_report_of_rights r today lang
        (strIn_trans (strIn_rightBlock_description i t) hb)⟩
  · intro rec hrec
    obtain ⟨i, hi⟩ := recLines_mem 0 _ rec hrec
    exact strIn_report_of_recs r today lang
      (strIn_trans (strIn_recLine i rec) (strIn_joinSep "\n" _ _ hi))

/-- Witness for C4 at concrete inputs. -/
theorem c4_witness :
    handleDownloadReport (some sampleResults) true "10/11/2026" "en" "2026-10-11" =
      some (.textFile (reportTextFilename sampleResults "en" "2026-10-11")
        (fallbackReport sampleResults "10/11/2026" "en")) :=
  (c4_pdf_fallback_content sampleResults "10/11/2026" "en" "2026-10-11").1

/-- C10: `getContextualQuestions` returns between 3 and 4 questions,
contains the fairness-score question exactly when the overall score is
below 70, and contains the high-priority question only when some clause
has severity high. -/
theorem c10_contextual_questions (ar : AnalysisResults) :
    3 ≤ (getContextualQuestions ar).length ∧
    (getContextualQuestions ar).length ≤ 4 ∧
    (scoreQuestion ar ∈ getContextualQuestions ar ↔
      ar.analysis.overall_score < 70) ∧
    (highPriorityQuestion ∈ getContextualQuestions ar →
      ∃ c ∈ ar.analysis.unfair_clauses, c.severity = Severity.high) := by
  have hex : 0 < (ar.analysis.unfair_clauses.filter
      (fun c => c.severity == Severity.high)).length →
      ∃ c ∈ ar.analysis.unfair_clauses, c.severity = Severity.high := by
    intro hh
    obtain ⟨c, hcmem⟩ := List.exists_mem_of_length_pos hh
    rcases List.mem_filter.mp hcmem with ⟨hmem, hbeq⟩
    exact ⟨c, hmem, by simpa using hbeq⟩
  by_cases hc : 0 < ar.analysis.unfair_clauses.length
  · by_cases hh : 0 < (ar.analysis.unfair_clauses.filter
        (fun c => c.severity == Severity.high)).length
    · by_cases hs : ar.analysis.overall_score < 70
      · have hlist : getContextualQuestions ar =
            [clausesQuestion ar, highPriorityQuestion, scoreQuestion ar,
             explainQuestion] := by
          simp [getContextualQuestions, hc, hh, hs]
        exact ⟨by simp [hlist], by simp [hlist], by simp [hlist, hs],
          fun _ => hex hh⟩
      · have hlist : getContextualQuestions ar =
            [clausesQuestion ar, highPriorityQuestion, explainQuestion,
             nextStepQuestion] := by
          simp [getContextualQuestions, hc, hh, hs]
        exact ⟨by simp [hlist], by simp [hlist],
          by simp [hlist, hs, scoreQ_ne_clausesQ ar ar, scoreQ_ne_highQ ar,
            scoreQ_ne_explainQ ar, scoreQ_ne_nextStepQ ar],
          fun _ => hex hh⟩
    · by_cases hs : ar.analysis.overall_score < 70
      · have hlist : getContextualQuestions ar =
            [clausesQuestion ar, scoreQuestion ar, explainQuestion,
             nextStepQuestion] := by
          simp [getContextualQuestions, hc, hh, hs]
        refine ⟨by simp [hlist], by simp [hlist], by simp [hlist, hs], ?_⟩
        intro hmem
        rw [hlist] at hmem
        simp [highQ_ne_clausesQ ar, highQ_ne_scoreQ ar, highQ_ne_fixed.1,
          highQ_ne_fixed.2.1] at hmem
      · have hlist : getContextualQuestions ar =
            [clausesQuestion ar, explainQuestion, nextStepQuestion,
             legalQuestion] := by
          simp [getContextualQuestions, hc, hh, hs]
        refine ⟨by simp [hlist], by simp [hlist],
          by simp [hlist, hs, scoreQ_ne_clausesQ ar ar, scoreQ_ne_explainQ ar,
            scoreQ_ne_nextStepQ ar, scoreQ_ne_legalQ ar], ?_⟩
        intro hmem
        rw [hlist] at hmem
        simp [highQ_ne_clausesQ ar, highQ_ne_fixed.1, highQ_ne_fixed.2.1,
          highQ_ne_fixed.2.2] at hmem
  · by_cases hs : ar.analysis.overall_score < 70
    · have hlist : getContextualQuestions ar =
          [scoreQuestion ar, explainQuestion, nextStepQuestion,
           legalQuestion] := by
        simp [getContextualQuestions, hc, hs]
      refine ⟨by simp [hlist], by simp [hlist], by simp [hlist, hs], ?_⟩
      intro hmem
      rw [hlist] at hmem
      simp [highQ_ne_scoreQ ar, highQ_ne_fixed.1, highQ_ne_fixed.2.1,
        highQ_ne_fixed.2.2] at hmem
    · have hlist : getContextualQuestions ar =
          [explainQuestion, nextStepQuestion, legalQuestion] := by
        simp [getContextualQuestions, hc, hs]
      refine ⟨by simp [hlist], by simp [hlist],
        by simp [hlist, hs, scoreQ_ne_explainQ ar, scoreQ_ne_nextStepQ ar,
          scoreQ_ne_legalQ ar], ?_⟩
      intro hmem
      rw [hlist] at hmem
      simp [highQ_ne_fixed.1, highQ_ne_fixed.2.1, highQ_ne_fixed.2.2] at hmem

/-- Witness for C10 on the concrete sample payload. -/
theorem c10_witness :
    3 ≤ (getContextualQuestions sampleResults).length ∧
    (getContextualQuestions sampleResults).length ≤ 4 :=
  ⟨(c10_contextual_questions sampleResults).1,
   (c10_contextual_questions sampleResults).2.1⟩
